import Mathlib

/-!
Verification of the ASA policy frontend's client-side data pipeline.

This file shallowly embeds the JavaScript of `js/public/policies.js`,
`js/public/bylaws.js` and the admin action handlers (`js/admin/deletePolicy.js`,
`js/admin/login.js`, `js/admin/profile.js`) into Lean.  Pure string and list
manipulation is translated function-by-function; network calls become explicit
parameters describing the outcome of the corresponding `fetch`; DOM state
becomes explicit record fields.  JavaScript truthiness on strings
(`x || y`) is modelled by `jsOr`/`jsOrS`.
-/

/-- Model of the JavaScript expression `x || d` where `x : string | undefined`:
`undefined`, `null` and the empty string are falsy. -/
def jsOr (o : Option String) (d : String) : String :=
  match o with
  | some s => if s = "" then d else s
  | none => d

/-- Model of the JavaScript expression `x || d` for a plain string `x`. -/
def jsOrS (s d : String) : String :=
  if s = "" then d else s

/-- Model of `String.prototype.toLowerCase` (code-point-wise lowering, which
agrees with JavaScript on the ASCII identifiers and names this app handles). -/
def lowerStr (s : String) : String :=
  ⟨s.data.map Char.toLower⟩

/-- Does `l` start with `p`?  Helper for the substring test behind
`String.prototype.includes`. -/
def startsWithChars (l p : List Char) : Bool :=
  match l, p with
  | _, [] => true
  | [], _ :: _ => false
  | a :: as, b :: bs => if a = b then startsWithChars as bs else false

/-- Does the character list contain `sub` as a contiguous run?  Helper for
`String.prototype.includes`. -/
def containsChars (sub : List Char) : List Char → Bool
  | [] => startsWithChars [] sub
  | c :: rest => startsWithChars (c :: rest) sub || containsChars sub rest

/-- Model of `s.includes(sub)` (case-sensitive contiguous substring test). -/
def strIncludes (s sub : String) : Bool :=
  containsChars sub.data s.data

/-- Model of `String.prototype.trim`: strip leading and trailing whitespace. -/
def trimChars (cs : List Char) : List Char :=
  ((cs.dropWhile Char.isWhitespace).reverse.dropWhile Char.isWhitespace).reverse

/-- Model of `s.trim()`. -/
def trimStr (s : String) : String :=
  ⟨trimChars s.data⟩

/-- Three-way comparison written exactly like the source comparator's
`if (a < b) return -1; if (a > b) return 1;` pattern. -/
def ordCmp {α : Type} [LinearOrder α] (a b : α) : Ordering :=
  if a < b then .lt else if b < a then .gt else .eq

/-- Lexicographic comparison of two lists using a three-way comparison `c` on
elements; the first non-`eq` element comparison decides, a strict prefix sorts
first. -/
def lexCmp {α : Type} (c : α → α → Ordering) : List α → List α → Ordering
  | [], [] => .eq
  | [], _ :: _ => .lt
  | _ :: _, [] => .gt
  | a :: as, b :: bs =>
    match c a b with
    | .eq => lexCmp c as bs
    | o => o

/-- Model of `str.split('.')` on the character level: JavaScript's split keeps
empty segments, and `''.split('.')` is `['']`. -/
def splitOnDot : List Char → List (List Char)
  | [] => [[]]
  | c :: cs =>
    if c = '.' then [] :: splitOnDot cs
    else
      match splitOnDot cs with
      | [] => [[c]]
      | seg :: rest => (c :: seg) :: rest

/-- Accumulate the value of a maximal leading digit run, as `parseInt` does
after it has seen at least one digit (trailing garbage is ignored). -/
def leadDigitsAux (acc : Nat) : List Char → Nat
  | [] => acc
  | c :: cs => if c.isDigit then leadDigitsAux (acc * 10 + (c.toNat - '0'.toNat)) cs else acc

/-- The value of the maximal leading digit run, or `none` when the input does
not start with a digit. -/
def leadingDigits : List Char → Option Nat
  | [] => none
  | c :: cs => if c.isDigit then some (leadDigitsAux (c.toNat - '0'.toNat) cs) else none

/-- Model of `parseInt(s, 10)`: skip leading whitespace, read an optional
sign, then the maximal digit prefix; `none` models `NaN`. -/
def jsParseInt (cs0 : List Char) : Option Int :=
  let cs := cs0.dropWhile Char.isWhitespace
  match cs with
  | [] => none
  | c :: rest =>
    if c = '-' then (leadingDigits rest).map (fun n => -(n : Int))
    else if c = '+' then (leadingDigits rest).map (fun n => (n : Int))
    else (leadingDigits (c :: rest)).map (fun n => (n : Int))

/-- The numeric segments of a dotted policy identifier, from the source:
`policyId.split('.').map(part => { const num = parseInt(part, 10); return
isNaN(num) ? 0 : num; })`. -/
def policyIdParts (s : String) : List Int :=
  (splitOnDot s.data).map (fun seg =>
    match jsParseInt seg with
    | some n => n
    | none => 0)

/-- Segment comparison loop from the source: `for (i = 0; i < maxLength; i++)`
comparing `partsA[i] || 0` against `partsB[i] || 0`; first difference decides.
`cmpTail0` handles indices past the end of the first list. -/
def cmpTail0 : List Int → Ordering
  | [] => .eq
  | b :: bs =>
    match ordCmp 0 b with
    | .eq => cmpTail0 bs
    | o => o

/-- Indices past the end of the second list in the source's comparison loop. -/
def cmpHead0 : List Int → Ordering
  | [] => .eq
  | a :: as =>
    match ordCmp a 0 with
    | .eq => cmpHead0 as
    | o => o

/-- The source's segment-by-segment comparison over `maxLength` indices, with
missing entries read as 0. -/
def cmpParts : List Int → List Int → Ordering
  | [], bs => cmpTail0 bs
  | a :: as, [] =>
    match ordCmp a 0 with
    | .eq => cmpHead0 as
    | o => o
  | a :: as, b :: bs =>
    match ordCmp a b with
    | .eq => cmpParts as bs
    | o => o

/-- Model of `a.localeCompare(b)`: a deterministic total order on strings.  On
the dotted ASCII identifiers this app compares, the default-locale comparison
coincides with code-point order, which is what we use. -/
def localeCompare (a b : String) : Ordering :=
  lexCmp ordCmp a.data b.data

/-- The full comparator of `sortItemsByPolicyNumber` from
`js/public/policies.js`: numeric segment comparison, then `localeCompare` as
the tie-break. -/
def comparePolicyIds (a b : String) : Ordering :=
  match cmpParts (policyIdParts a) (policyIdParts b) with
  | .eq => localeCompare a b
  | o => o

/-- Pad a segment list with zeros up to length `n` (the spec's "shorter
sequences padded with 0"). -/
def padZeros (l : List Int) (n : Nat) : List Int :=
  l ++ List.replicate (n - l.length) 0

/-- Spec-side segment comparison, following the spec's words: "compare
sequentially segment-by-segment, shorter sequences padded with 0". -/
def specSegCmp (as bs : List Int) : Ordering :=
  lexCmp ordCmp (padZeros as (max as.length bs.length)) (padZeros bs (max as.length bs.length))

/-- Spec-side identifier comparator, following the spec's words: "split the
identifier into dot-separated segments; parse each segment as an integer
(treat unparsable segments as 0); compare sequentially segment-by-segment,
shorter sequences padded with 0; on full equality, fall back to locale-aware
string comparison as a deterministic tie-break". -/
def specCompareIds (a b : String) : Ordering :=
  match specSegCmp (policyIdParts a) (policyIdParts b) with
  | .eq => localeCompare a b
  | o => o

/-- The source sort comparator as a binary relation on identifier strings:
"comparator result is not greater", i.e. `a` may come before `b`. -/
def idLe (a b : String) : Prop :=
  comparePolicyIds a b ≠ .gt

instance : DecidableRel idLe := fun a b => by
  unfold idLe
  exact inferInstance

/-- Raw policy record as returned by the API (`snake_case` keys); absent JSON
fields are `none`. -/
structure RawPolicy where
  id : String := ""
  policy_id : Option String := none
  policy_name : Option String := none
  «section» : Option String := none
  policy_content : Option String := none
  status : Option String := none
  created_at : Option String := none
  updated_at : Option String := none
  created_by : Option String := none
  updated_by : Option String := none
deriving DecidableEq

/-- Frontend view-model produced by the field mapper in
`getApprovedPolicies`: both original-style and UI-friendly key names are
populated ("Keep both for compatibility"). -/
structure Policy where
  id : String
  policyId : Option String
  name : Option String
  policyName : Option String
  «section» : Option String
  content : Option String
  policyContent : Option String
  status : Option String
  createdAt : Option String
  updatedAt : Option String
  createdBy : Option String
  updatedBy : Option String
deriving DecidableEq

/-- The mapping step inside `getApprovedPolicies` (policies.js lines 118-131). -/
def mapApiPolicy (p : RawPolicy) : Policy :=
  ⟨p.id, p.policy_id, p.policy_name, p.policy_name, p.«section», p.policy_content,
    p.policy_content, p.status, p.created_at, p.updated_at, p.created_by, p.updated_by⟩

/-- Errors signalled by the API client (`apiRequest`). -/
inductive ApiError where
  | notFound
  | serverError
  | requestFailed (msg : String)
  | networkError
  | bodyNotJson
deriving DecidableEq

/-- `getApprovedPolicies` (policies.js lines 107-138).  The argument is the
outcome of `apiRequest` decoded as a list of records.  The whole body is
wrapped in `try { ... } catch { return []; }`, so the function never throws:
every error becomes the empty list. -/
def getApprovedPolicies (resp : Except ApiError (List RawPolicy)) : List Policy :=
  match resp with
  | .ok policies => policies.map mapApiPolicy
  | .error _ => []

/-- `getSectionName` (policies.js lines 57-64). -/
def getSectionName (s : String) : String :=
  if s = "1" then "Organizational Identity & Values"
  else if s = "2" then "Governance & Elections"
  else if s = "3" then "Operations, Staff & Finance"
  else "Section " ++ s

/-- An item as built by `renderSections` for rendering: `policyId` is kept
optional because the sorter is also applied to records where the field can be
absent (`a.policyId || ''` in the source). -/
structure Item where
  id : String
  policyId : Option String
  name : String
  «section» : String
  sectionName : String
deriving DecidableEq

/-- The sort comparator of `sortItemsByPolicyNumber` lifted to items:
`comparePolicyIds(a.policyId || '', b.policyId || '')` did not return 1. -/
def itemLe (a b : Item) : Prop :=
  idLe (jsOr a.policyId "") (jsOr b.policyId "")

instance : DecidableRel itemLe := fun a b => by
  unfold itemLe
  exact inferInstance

/-- `sortItemsByPolicyNumber` (policies.js lines 72-100): a stable sort of the
items by the comparator `comparePolicyIds` applied to `a.policyId || ''`.
`Array.prototype.sort` with a consistent comparator produces a stable
comparator-sorted permutation, which `List.insertionSort` models; the
comparison itself is total, so the sort never throws. -/
def sortItemsByPolicyNumber (items : List Item) : List Item :=
  items.insertionSort itemLe

/-- The per-item search predicate used in `renderSections` (policies.js lines
193-197 and 258-262): case-insensitive substring match on name, identifier
and section name. -/
def matchesSearch (searchTerm : String) (it : Item) : Bool :=
  strIncludes (lowerStr (jsOrS it.name "")) (lowerStr searchTerm) ||
  strIncludes (lowerStr (jsOr it.policyId "")) (lowerStr searchTerm) ||
  strIncludes (lowerStr (jsOrS it.sectionName "")) (lowerStr searchTerm)

/-- The filtering step of `renderSections`: filter only when a search term is
present (`if (searchTerm !== '')`). -/
def applySearch (searchTerm : String) (items : List Item) : List Item :=
  if searchTerm ≠ "" then items.filter (matchesSearch searchTerm) else items

/-- A fixed section descriptor (policies.js lines 163-167). -/
structure SectionSpec where
  id : Nat
  title : String
  sectionKey : String
deriving DecidableEq

/-- The three fixed sections of the listing page. -/
def sections : List SectionSpec :=
  [⟨1, getSectionName "1", "1"⟩, ⟨2, getSectionName "2", "2"⟩, ⟨3, getSectionName "3", "3"⟩]

/-- A section together with its (filtered, sorted) items. -/
structure SectionData where
  id : Nat
  title : String
  sectionKey : String
  items : List Item
deriving DecidableEq

/-- The item built from a mapped policy in the primary (per-section) path of
`renderSections` (policies.js lines 182-188). -/
def mkSectionItem (sec : SectionSpec) (p : Policy) : Item :=
  ⟨p.id, some (jsOr p.policyId p.id), jsOr p.name (jsOr p.policyName "Untitled"),
    sec.sectionKey, sec.title⟩

/-- One iteration of the per-section fetch in the primary path of
`renderSections`: fetch, map to items, filter by the search term, sort.
`getApprovedPolicies` handles its own fetch errors (returning `[]`), and every
remaining step is a total computation, so the `try`/`catch` wrapped around
this closure in the source can never take its `catch` branch. -/
def primarySection (searchTerm : String) (sec : SectionSpec)
    (resp : Except ApiError (List RawPolicy)) : SectionData :=
  let policies := getApprovedPolicies resp
  let items := policies.map (mkSectionItem sec)
  let filteredItems := applySearch searchTerm items
  ⟨sec.id, sec.title, sec.sectionKey, sortItemsByPolicyNumber filteredItems⟩

/-- The fallback grouping of `renderSections` (policies.js lines 229-271):
group the full list by `policy.section || '1'`; a record is pushed only when
its section value is one of the three map keys (`if (sectionsMap[section])`),
so records with an unknown section value are dropped. -/
def fallbackSections (searchTerm : String)
    (allResp : Except ApiError (List RawPolicy)) : List SectionData :=
  let allPolicies := getApprovedPolicies allResp
  sections.map (fun sec =>
    let items := (allPolicies.filter (fun p => jsOr p.«section» "1" = sec.sectionKey)).map
      (fun p => ⟨p.id, some (jsOr p.policyId p.id), jsOr p.name (jsOr p.policyName "Untitled"),
        jsOr p.«section» "1", getSectionName (jsOr p.«section» "1")⟩)
    let filteredItems := applySearch searchTerm items
    ⟨sec.id, sec.title, sec.sectionKey, sortItemsByPolicyNumber filteredItems⟩)

/-- The outcomes of the four fetches `renderSections` may issue: one per
section in the primary path, plus the unfiltered full-list fetch of the
fallback path. -/
structure FetchEnv where
  sec1 : Except ApiError (List RawPolicy)
  sec2 : Except ApiError (List RawPolicy)
  sec3 : Except ApiError (List RawPolicy)
  allList : Except ApiError (List RawPolicy)

/-- The identifier set recorded after a render (policies.js lines 296-303):
`currentPolicyIds` is cleared and refilled with `item.policyId || item.id` of
every item of every section. -/
def collectIds (secs : List SectionData) : Finset String :=
  (((secs.map SectionData.items).flatten).map (fun it => jsOr it.policyId it.id)).toFinset

/-- What a call to `renderSections` produced. -/
structure RenderResult where
  sectionsWithItems : List SectionData
  shown : List SectionData
  noResultsShown : Bool
  usedFallback : Bool
  fullListFetched : Bool
  newCurrentIds : Finset String
deriving DecidableEq

/-- `renderSections` (policies.js lines 152-303).  Each per-section closure is
wrapped in a `try`/`catch` that would set `useFallback`, but
`getApprovedPolicies` catches its own errors and returns `[]`, and mapping,
filtering and sorting are total, so neither the inner nor the outer `catch`
can run and `useFallback` remains `false`; the fallback fetch is therefore
never issued.  A section is shown when it has items or no search is active;
when nothing is shown a "No results found" message replaces the sections. -/
def renderSections (searchTerm : String) (env : FetchEnv) : RenderResult :=
  let sectionsWithItems := List.zipWith (primarySection searchTerm) sections
    [env.sec1, env.sec2, env.sec3]
  let useFallback := false
  let sectionsWithItems :=
    if useFallback then fallbackSections searchTerm env.allList else sectionsWithItems
  let shown := sectionsWithItems.filter (fun s => s.items.length > 0 || searchTerm = "")
  ⟨sectionsWithItems, shown, shown.isEmpty, useFallback, useFallback,
    collectIds sectionsWithItems⟩

/-- The module-level mutable state of the listing page (policies.js lines
141-144). -/
structure PageState where
  openSections : List Nat
  searchTerm : String
  currentPolicyIds : Finset String
deriving DecidableEq

/-- What one invocation of `checkForNewPolicies` did. -/
structure CheckOutcome where
  state : PageState
  notification : Option Nat
  rerendered : Bool
deriving DecidableEq

/-- The identifier set computed from a freshly fetched list inside
`checkForNewPolicies` (policies.js lines 573-580): `policy.policyId || policy.id`
for each record, collected into a `Set`. -/
def newPolicyIdsOf (resp : Except ApiError (List RawPolicy)) : Finset String :=
  ((getApprovedPolicies resp).map (fun p => jsOr p.policyId p.id)).toFinset

/-- `checkForNewPolicies` (policies.js lines 561-597): fetch the full approved
list, compute the fresh identifier set, and only when it is strictly larger
than the recorded set show a notification with the size difference and
re-render (which is what updates `currentPolicyIds`, via `renderSections`).
The notification is modelled as `some count`; `showNewPoliciesNotification`
first removes any existing notification, so at most one is visible. -/
def checkForNewPolicies (st : PageState) (pollResp : Except ApiError (List RawPolicy))
    (env : FetchEnv) : CheckOutcome :=
  let newPolicyIds := newPolicyIdsOf pollResp
  if newPolicyIds.card > st.currentPolicyIds.card then
    let newCount := newPolicyIds.card - st.currentPolicyIds.card
    let rr := renderSections st.searchTerm env
    ⟨⟨st.openSections, st.searchTerm, rr.newCurrentIds⟩, some newCount, true⟩
  else
    ⟨st, none, false⟩

/-- A rendered section's DOM node: its `data-section-id` attribute, the
`open` classes of its content and arrow, and its remaining markup. -/
structure SectionNode where
  sectionId : Nat
  contentOpen : Bool
  arrowOpen : Bool
  contentHtml : String
deriving DecidableEq

/-- The DOM and sidecar state `toggleSection` works on; `fetchLog` records
every network request issued so far (the function issues none). -/
structure ToggleState where
  openSections : List Nat
  dom : List SectionNode
  fetchLog : List String
deriving DecidableEq

/-- `openSections.splice(index, 1)` after `indexOf`: remove the first
occurrence. -/
def removeFirst (x : Nat) : List Nat → List Nat
  | [] => []
  | y :: ys => if y = x then ys else y :: removeFirst x ys

/-- `container.querySelector('[data-section-id=...]')` followed by toggling
the `open` classes: update the first node with the matching id. -/
def updateFirstNode (sid : Nat) (isOpen : Bool) : List SectionNode → List SectionNode
  | [] => []
  | n :: ns =>
    if n.sectionId = sid then
      { n with contentOpen := isOpen, arrowOpen := isOpen } :: ns
    else
      n :: updateFirstNode sid isOpen ns

/-- `toggleSection` (policies.js lines 378-409): update the `openSections`
list (splice out or push the id), then set the matching section element's
content and arrow `open` classes from the new membership.  The function
performs no fetch, so the fetch log is untouched. -/
def toggleSection (sectionId : Nat) (st : ToggleState) : ToggleState :=
  let opens :=
    if sectionId ∈ st.openSections then removeFirst sectionId st.openSections
    else st.openSections ++ [sectionId]
  let isOpen := sectionId ∈ opens
  ⟨opens, updateFirstNode sectionId isOpen st.dom, st.fetchLog⟩

/-- A JSON response body, as far as `apiRequest` inspects it: an optional
`detail` field plus the rest of the document (kept opaque). -/
structure JsonBody where
  detail : Option String
  rest : String
deriving DecidableEq

/-- The outcome of `fetch` as seen by `apiRequest`: either the request never
reached the server (`fetch` rejects with `TypeError: Failed to fetch`), or a
response with a status code and a body that either parses as JSON or not. -/
inductive FetchOutcome where
  | networkFailure
  | response (status : Nat) (body : Option JsonBody)
deriving DecidableEq

/-- `apiRequest` (policies.js lines 14-50): map the fetch outcome to either a
parsed body (`none` for a 204 No Content) or an error.  `response.ok` is
status 200-299; a non-ok 404 signals not-found, 5xx a generic retryable
server error, any other non-ok status the body's JSON `detail` field (or a
generic message when the body is not JSON or has no detail); a 2xx body that
fails to parse propagates as `bodyNotJson`; a network-level failure is
reported distinctly. -/
def apiRequest (o : FetchOutcome) : Except ApiError (Option JsonBody) :=
  match o with
  | .networkFailure => .error .networkError
  | .response status body =>
    if ¬(200 ≤ status ∧ status ≤ 299) then
      if status = 404 then .error .notFound
      else if 500 ≤ status then .error .serverError
      else
        match body with
        | some b => .error (.requestFailed (jsOr b.detail "Request failed"))
        | none => .error (.requestFailed "Request failed")
    else if status = 204 then .ok none
    else
      match body with
      | some b => .ok (some b)
      | none => .error .bodyNotJson

/-- The three input fields of the public suggestion form (bylaws.js). -/
structure FormState where
  policySelectValue : String
  suggestionTextValue : String
  emailInputValue : String
deriving DecidableEq

/-- What the suggestion submit handler did: reject with a validation alert,
or POST a body of key/value pairs to `/api/suggestions`. -/
inductive SubmitOutcome where
  | rejectedAlert (msg : String)
  | submitted (body : List (String × String))
deriving DecidableEq

/-- The suggestion form submit handler (bylaws.js lines 510-571): validate
presence of email, policy selection and suggestion text, then require the
raw email value to contain `@ualberta.ca`; only when all checks pass is a
request issued, whose JSON body is exactly
`policy_id`/`suggestion`/`status: "pending"`.  The success alert and form
reset are elided. -/
def suggestionSubmit (f : FormState) : SubmitOutcome :=
  let selectedPolicyId := f.policySelectValue
  let suggestion := trimStr f.suggestionTextValue
  let email := trimStr f.emailInputValue
  if email = "" then .rejectedAlert "Please enter your UAlberta email address"
  else if selectedPolicyId = "" then .rejectedAlert "Please select a policy to refer to."
  else if suggestion = "" then .rejectedAlert "Please enter your suggestion."
  else if strIncludes f.emailInputValue "@ualberta.ca" = false then
    .rejectedAlert "Please enter a valid UAlberta email address"
  else
    .submitted [("policy_id", selectedPolicyId), ("suggestion", suggestion), ("status", "pending")]

/-- Whether the handler stopped at a validation alert. -/
def SubmitOutcome.isRejected : SubmitOutcome → Bool
  | .rejectedAlert _ => true
  | .submitted _ => false

/-- The network requests the handler issued: none on rejection, one POST body
otherwise. -/
def SubmitOutcome.requests : SubmitOutcome → List (List (String × String))
  | .rejectedAlert _ => []
  | .submitted body => [body]

/-- Client-visible result of an admin action handler: the token left in
`localStorage`, the page navigated to (if any), and the alerts shown. -/
structure AdminState where
  token : Option String
  redirect : Option String
  alerts : List String
deriving DecidableEq

/-- Outcome of the `/api/auth/me` role check in `deletePolicy`: `err` covers a
rejected fetch or an unparsable body (both land in the same `catch`),
otherwise a status plus the `role` field of the JSON body. -/
inductive MeOutcome where
  | err
  | resp (status : Nat) (role : Option String)
deriving DecidableEq

/-- Outcome of the DELETE call in `deletePolicy`: a rejected fetch with its
error message, or a status plus the response text. -/
inductive DeleteOutcome where
  | err (msg : String)
  | resp (status : Nat) (bodyText : String)
deriving DecidableEq

/-- Outcome of the PUT approve call in `approvePolicy`: a rejected fetch with
its error message, or a status, status text, and — when the body parses as
JSON — its optional `detail` field. -/
inductive ApproveOutcome where
  | err (msg : String)
  | resp (status : Nat) (statusText : String) (detail : Option (Option String))
deriving DecidableEq

/-- `deletePolicy` (js/admin/deletePolicy.js): check the token, check the
user's role via `/api/auth/me`, confirm, then DELETE.  Note that the 401
branches alert and redirect to the login page but never call
`localStorage.removeItem`. -/
def deletePolicy (token : Option String) (me : MeOutcome) (confirmed : Bool)
    (del : DeleteOutcome) : AdminState :=
  match token with
  | none => ⟨none, some "admin/login.html", ["Please login to delete policies."]⟩
  | some t =>
    match me with
    | .err => ⟨some t, none, ["Failed to verify permissions. Please try again."]⟩
    | .resp mst role =>
      if ¬(200 ≤ mst ∧ mst ≤ 299) then
        if mst = 401 then
          ⟨some t, some "admin/login.html", ["Your session has expired. Please login again."]⟩
        else ⟨some t, none, ["Failed to verify permissions. Please try again."]⟩
      else if role ≠ some "admin" then
        ⟨some t, none, ["Sorry, only admin is allowed to delete policy."]⟩
      else if ¬confirmed then ⟨some t, none, []⟩
      else
        match del with
        | .err m =>
          ⟨some t, none, ["Failed to delete policy. Please try again.\n\nError: " ++ m]⟩
        | .resp dst body =>
          if ¬(200 ≤ dst ∧ dst ≤ 299) then
            if dst = 401 then
              ⟨some t, some "admin/login.html", ["Your session has expired. Please login again."]⟩
            else if dst = 403 then
              ⟨some t, none, ["Sorry, only admin is allowed to delete policy."]⟩
            else if dst = 404 then
              ⟨some t, none, ["Policy not found. It may have already been deleted."]⟩
            else
              ⟨some t, none,
                ["Failed to delete policy. Please try again.\n\nError: Failed to delete policy: "
                  ++ toString dst ++ " - " ++ body]⟩
          else ⟨some t, none, ["Policy deleted successfully."]⟩

/-- `approvePolicy` (js/admin/login.js lines 59-125): check the token,
confirm, then PUT the approval.  As in `deletePolicy`, the 401 branch alerts
and redirects but leaves the stored token in place; 403 only alerts. -/
def approvePolicy (token : Option String) (confirmed : Bool) (r : ApproveOutcome) : AdminState :=
  match token with
  | none => ⟨none, some "admin/login.html", ["Please login to approve policies."]⟩
  | some t =>
    if ¬confirmed then ⟨some t, none, []⟩
    else
      match r with
      | .err m =>
        ⟨some t, none, ["Failed to approve policy. Please try again.\n\nError: " ++ m]⟩
      | .resp st stext detail =>
        if ¬(200 ≤ st ∧ st ≤ 299) then
          if st = 401 then
            ⟨some t, some "admin/login.html", ["Your session has expired. Please login again."]⟩
          else if st = 403 then
            ⟨some t, none, ["Only admins can approve policies."]⟩
          else if st = 404 then
            ⟨some t, none, ["Policy not found. It may have already been deleted."]⟩
          else
            match detail with
            | some (some d) => ⟨some t, none, [jsOrS d "Failed to approve policy."]⟩
            | some none => ⟨some t, none, ["Failed to approve policy."]⟩
            | none =>
              ⟨some t, none, ["Failed to approve policy: " ++ toString st ++ " " ++ stext]⟩
        else ⟨some t, none, ["Policy approved successfully!"]⟩

/-- `handleLogout` (js/admin/profile.js lines 61-66): the only place the
stored token is removed from client storage. -/
def handleLogout (confirmed : Bool) (token : Option String) : AdminState :=
  if confirmed then ⟨none, some "login.html", []⟩ else ⟨token, none, []⟩

/-- Spec-side substring predicate: `p` occurs as a contiguous run inside
`hs`. -/
def isSubstringOf (p hs : List Char) : Prop :=
  ∃ pre post, hs = pre ++ p ++ post

/-- Spec-side search predicate, following the spec's words: case-insensitive
substring match of the query against name/title, identifier, and section
name. -/
def specMatches (q : String) (it : Item) : Prop :=
  isSubstringOf (lowerStr q).data (lowerStr (jsOrS it.name "")).data ∨
  isSubstringOf (lowerStr q).data (lowerStr (jsOr it.policyId "")).data ∨
  isSubstringOf (lowerStr q).data (lowerStr (jsOrS it.sectionName "")).data

theorem ordCmp_eq_iff {α : Type} [LinearOrder α] (a b : α) : ordCmp a b = .eq ↔ a = b := by
  rcases lt_trichotomy a b with h | h | h
  · simp [ordCmp, h, h.ne]
  · subst h
    simp [ordCmp, lt_irrefl]
  · have h1 : ¬ a < b := lt_asymm h
    simp [ordCmp, h1, h, h.ne']

theorem ordCmp_lt_iff {α : Type} [LinearOrder α] (a b : α) : ordCmp a b = .lt ↔ a < b := by
  rcases lt_trichotomy a b with h | h | h
  · simp [ordCmp, h]
  · subst h
    simp [ordCmp, lt_irrefl]
  · have h1 : ¬ a < b := lt_asymm h
    simp [ordCmp, h1, h]

theorem ordCmp_gt_iff {α : Type} [LinearOrder α] (a b : α) : ordCmp a b = .gt ↔ b < a := by
  rcases lt_trichotomy a b with h | h | h
  · simp [ordCmp, h, lt_asymm h]
  · subst h
    simp [ordCmp, lt_irrefl]
  · have h1 : ¬ a < b := lt_asymm h
    simp [ordCmp, h1, h]

theorem ordCmp_swap {α : Type} [LinearOrder α] (a b : α) : ordCmp a b = (ordCmp b a).swap := by
  rcases lt_trichotomy a b with h | h | h
  · have h1 : ¬ b < a := lt_asymm h
    simp [ordCmp, h, h1, Ordering.swap]
  · subst h
    simp [ordCmp, lt_irrefl, Ordering.swap]
  · have h1 : ¬ a < b := lt_asymm h
    simp [ordCmp, h1, h, Ordering.swap]

theorem ordCmp_lt_trans {α : Type} [LinearOrder α] (a b c : α)
    (h1 : ordCmp a b = .lt) (h2 : ordCmp b c = .lt) : ordCmp a c = .lt :=
  (ordCmp_lt_iff a c).mpr (lt_trans ((ordCmp_lt_iff a b).mp h1) ((ordCmp_lt_iff b c).mp h2))

theorem lexCmp_eq_iff {α : Type} (c : α → α → Ordering) (hc : ∀ x y, c x y = .eq ↔ x = y) :
    ∀ xs ys : List α, lexCmp c xs ys = .eq ↔ xs = ys := by
  intro xs
  induction xs with
  | nil =>
    intro ys
    cases ys <;> simp [lexCmp]
  | cons a as ih =>
    intro ys
    cases ys with
    | nil => simp [lexCmp]
    | cons b bs =>
      simp only [lexCmp]
      cases hab : c a b with
      | lt =>
        have hne : a ≠ b := fun h => by simp [(hc a b).mpr h] at hab
        simp [hne]
      | gt =>
        have hne : a ≠ b := fun h => by simp [(hc a b).mpr h] at hab
        simp [hne]
      | eq =>
        have hab' : a = b := (hc a b).mp hab
        simp [hab', ih bs]

theorem lexCmp_swap {α : Type} (c : α → α → Ordering) (hc : ∀ x y, c x y = (c y x).swap) :
    ∀ xs ys : List α, lexCmp c xs ys = (lexCmp c ys xs).swap := by
  intro xs
  induction xs with
  | nil =>
    intro ys
    cases ys <;> simp [lexCmp, Ordering.swap]
  | cons a as ih =>
    intro ys
    cases ys with
    | nil => simp [lexCmp, Ordering.swap]
    | cons b bs =>
      simp only [lexCmp]
      rw [hc a b]
      cases hba : c b a <;> simp [Ordering.swap, ih bs]

theorem lexCmp_lt_trans {α : Type} (c : α → α → Ordering)
    (hc_eq : ∀ x y, c x y = .eq ↔ x = y)
    (hc_lt : ∀ x y z, c x y = .lt → c y z = .lt → c x z = .lt) :
    ∀ xs ys zs : List α, lexCmp c xs ys = .lt → lexCmp c ys zs = .lt → lexCmp c xs zs = .lt := by
  intro xs
  induction xs with
  | nil =>
    intro ys zs h1 h2
    cases ys with
    | nil => simp [lexCmp] at h1
    | cons b bs =>
      cases zs with
      | nil => simp [lexCmp] at h2
      | cons d ds => simp [lexCmp]
  | cons a as ih =>
    intro ys zs h1 h2
    cases ys with
    | nil => simp [lexCmp] at h1
    | cons b bs =>
      cases zs with
      | nil => simp [lexCmp] at h2
      | cons d ds =>
        simp only [lexCmp] at h1 h2 ⊢
        cases hab : c a b with
        | gt => simp [hab] at h1
        | lt =>
          cases hbd : c b d with
          | gt => simp [hbd] at h2
          | lt => simp [hc_lt a b d hab hbd]
          | eq =>
            have hbd' : b = d := (hc_eq b d).mp hbd
            subst hbd'
            simp [hab]
        | eq =>
          have hab' : a = b := (hc_eq a b).mp hab
          subst hab'
          cases hbd : c a d with
          | gt => simp [hbd] at h2
          | lt => simp [hbd]
          | eq =>
            simp [hab] at h1
            simp [hbd] at h2 ⊢
            exact ih bs ds h1 h2

theorem lexCmp_le_trans {α : Type} (c : α → α → Ordering)
    (hc_eq : ∀ x y, c x y = .eq ↔ x = y)
    (hc_lt : ∀ x y z, c x y = .lt → c y z = .lt → c x z = .lt) :
    ∀ xs ys zs : List α, lexCmp c xs ys ≠ .gt → lexCmp c ys zs ≠ .gt →
      lexCmp c xs zs ≠ .gt := by
  intro xs ys zs h1 h2
  cases hxy : lexCmp c xs ys with
  | gt => exact absurd hxy h1
  | eq =>
    rw [(lexCmp_eq_iff c hc_eq xs ys).mp hxy]
    exact h2
  | lt =>
    cases hyz : lexCmp c ys zs with
    | gt => exact absurd hyz h2
    | eq =>
      rw [← (lexCmp_eq_iff c hc_eq ys zs).mp hyz]
      simp [hxy]
    | lt =>
      simp [lexCmp_lt_trans c hc_eq hc_lt xs ys zs hxy hyz]

theorem padZeros_nil (n : Nat) : padZeros [] n = List.replicate n (0 : Int) := by
  simp [padZeros]

theorem padZeros_cons (a : Int) (l : List Int) (n : Nat) :
    padZeros (a :: l) (n + 1) = a :: padZeros l n := by
  simp [padZeros, Nat.succ_sub_succ]

theorem lexCmp_replicate_pad : ∀ (bs : List Int) (n : Nat), bs.length ≤ n →
    lexCmp ordCmp (List.replicate n (0 : Int)) (padZeros bs n) = cmpTail0 bs := by
  intro bs
  induction bs with
  | nil =>
    intro n _
    rw [padZeros_nil]
    simp [cmpTail0]
    exact (lexCmp_eq_iff ordCmp ordCmp_eq_iff _ _).mpr rfl
  | cons b bs ih =>
    intro n hn
    cases n with
    | zero => simp at hn
    | succ m =>
      rw [List.replicate_succ, padZeros_cons]
      simp only [lexCmp, cmpTail0]
      cases h0b : ordCmp (0 : Int) b <;> simp [ih m (by simpa using hn)]

theorem cmpHead0_eq_swap : ∀ l : List Int, cmpHead0 l = (cmpTail0 l).swap := by
  intro l
  induction l with
  | nil => simp [cmpHead0, cmpTail0, Ordering.swap]
  | cons a as ih =>
    simp only [cmpHead0, cmpTail0]
    rw [ordCmp_swap a 0]
    cases h : ordCmp (0 : Int) a <;> simp [Ordering.swap, ih]

theorem cmpParts_nil_right : ∀ l : List Int, cmpParts l [] = cmpHead0 l := by
  intro l
  cases l <;> rfl

theorem pad_stable : ∀ (as bs : List Int) (n : Nat), as.length ≤ n → bs.length ≤ n →
    lexCmp ordCmp (padZeros as n) (padZeros bs n) = cmpParts as bs := by
  intro as
  induction as with
  | nil =>
    intro bs n _ hb
    rw [padZeros_nil]
    exact lexCmp_replicate_pad bs n hb
  | cons a as ih =>
    intro bs n ha hb
    cases bs with
    | nil =>
      rw [padZeros_nil, lexCmp_swap ordCmp ordCmp_swap,
        lexCmp_replicate_pad (a :: as) n ha, ← cmpHead0_eq_swap, cmpParts_nil_right]
    | cons b bs =>
      cases n with
      | zero => simp at ha
      | succ m =>
        rw [padZeros_cons, padZeros_cons]
        simp only [lexCmp, cmpParts]
        cases hab : ordCmp a b <;>
          simp [ih bs m (by simpa using ha) (by simpa using hb)]

theorem cmpParts_eq_specSegCmp (as bs : List Int) : cmpParts as bs = specSegCmp as bs :=
  (pad_stable as bs _ (le_max_left _ _) (le_max_right _ _)).symm

theorem comparePolicyIds_eq_spec (a b : String) : comparePolicyIds a b = specCompareIds a b := by
  unfold comparePolicyIds specCompareIds specSegCmp
  rw [cmpParts_eq_specSegCmp]
  rfl

theorem cmpParts_swap (as bs : List Int) : cmpParts as bs = (cmpParts bs as).swap := by
  rw [cmpParts_eq_specSegCmp, cmpParts_eq_specSegCmp]
  unfold specSegCmp
  rw [Nat.max_comm bs.length as.length]
  exact lexCmp_swap ordCmp ordCmp_swap _ _

theorem comparePolicyIds_swap (a b : String) :
    comparePolicyIds a b = (comparePolicyIds b a).swap := by
  unfold comparePolicyIds
  rw [cmpParts_swap]
  cases h : cmpParts (policyIdParts b) (policyIdParts a) <;>
    simp [Ordering.swap, localeCompare, lexCmp_swap ordCmp ordCmp_swap a.data b.data]

theorem comparePolicyIds_le_trans (a b c : String) (h1 : comparePolicyIds a b ≠ .gt)
    (h2 : comparePolicyIds b c ≠ .gt) : comparePolicyIds a c ≠ .gt := by
  unfold comparePolicyIds at h1 h2 ⊢
  have npa : (policyIdParts a).length ≤
      max (policyIdParts a).length (max (policyIdParts b).length (policyIdParts c).length) :=
    le_max_left _ _
  have npb : (policyIdParts b).length ≤
      max (policyIdParts a).length (max (policyIdParts b).length (policyIdParts c).length) :=
    le_trans (le_max_left _ _) (le_max_right _ _)
  have npc : (policyIdParts c).length ≤
      max (policyIdParts a).length (max (policyIdParts b).length (policyIdParts c).length) :=
    le_trans (le_max_right _ _) (le_max_right _ _)
  rw [← pad_stable (policyIdParts a) (policyIdParts b) _ npa npb] at h1
  rw [← pad_stable (policyIdParts b) (policyIdParts c) _ npb npc] at h2
  rw [← pad_stable (policyIdParts a) (policyIdParts c) _ npa npc]
  set n := max (policyIdParts a).length (max (policyIdParts b).length (policyIdParts c).length)
  cases hab : lexCmp ordCmp (padZeros (policyIdParts a) n) (padZeros (policyIdParts b) n) with
  | gt => simp [hab] at h1
  | lt =>
    cases hbc : lexCmp ordCmp (padZeros (policyIdParts b) n) (padZeros (policyIdParts c) n) with
    | gt => simp [hbc] at h2
    | lt =>
      simp [lexCmp_lt_trans ordCmp ordCmp_eq_iff ordCmp_lt_trans _ _ _ hab hbc]
    | eq =>
      rw [← (lexCmp_eq_iff ordCmp ordCmp_eq_iff _ _).mp hbc]
      simp [hab]
  | eq =>
    have he : padZeros (policyIdParts a) n = padZeros (policyIdParts b) n :=
      (lexCmp_eq_iff ordCmp ordCmp_eq_iff _ _).mp hab
    rw [he]
    cases hbc : lexCmp ordCmp (padZeros (policyIdParts b) n) (padZeros (policyIdParts c) n) with
    | gt => simp [hbc] at h2
    | lt => simp [hbc]
    | eq =>
      simp only [hbc]
      simp [hab] at h1
      simp [hbc] at h2
      exact lexCmp_le_trans ordCmp ordCmp_eq_iff ordCmp_lt_trans a.data b.data c.data h1 h2

theorem comparePolicyIds_total (a b : String) :
    comparePolicyIds a b ≠ .gt ∨ comparePolicyIds b a ≠ .gt := by
  cases h : comparePolicyIds a b with
  | gt =>
    right
    rw [comparePolicyIds_swap b a, h]
    simp [Ordering.swap]
  | lt =>
    left
    simp
  | eq =>
    left
    simp

instance : IsTrans Item itemLe :=
  ⟨fun _ _ _ h1 h2 => comparePolicyIds_le_trans _ _ _ h1 h2⟩

instance : IsTotal Item itemLe :=
  ⟨fun _ _ => comparePolicyIds_total _ _⟩

/-- The spec's ordering relation on items: the spec-side comparator, applied
to `a.policyId || ''`, does not place `a` after `b`. -/
def specItemLe (a b : Item) : Prop :=
  specCompareIds (jsOr a.policyId "") (jsOr b.policyId "") ≠ .gt

theorem itemLe_iff_specItemLe (a b : Item) : itemLe a b ↔ specItemLe a b := by
  unfold itemLe specItemLe idLe
  rw [comparePolicyIds_eq_spec]

/-- C1: `sortItemsByPolicyNumber` returns a permutation of its input ordered
by the spec's comparison — split the identifier (`a.policyId || ''`, so a
missing identifier is the empty string) on dots, parse segments as integers
with unparsable segments as 0, compare segment-by-segment with the shorter
side zero-padded, and tie-break by locale-aware string comparison; in
particular "1.2" < "1.10" < "1.10.1" < "2.1".  All functions involved are
total, so the comparison never throws. -/
theorem c1_sorter_correct :
    (∀ items : List Item, (sortItemsByPolicyNumber items).Perm items) ∧
    (∀ items : List Item, List.Sorted specItemLe (sortItemsByPolicyNumber items)) ∧
    (∀ a b : String, comparePolicyIds a b = specCompareIds a b) ∧
    jsOr none "" = "" ∧
    specCompareIds "1.2" "1.10" = .lt ∧
    specCompareIds "1.10" "1.10.1" = .lt ∧
    specCompareIds "1.10.1" "2.1" = .lt ∧
    (sortItemsByPolicyNumber
        [⟨"a", some "2.1", "", "", ""⟩, ⟨"b", some "1.10.1", "", "", ""⟩,
          ⟨"c", some "1.2", "", "", ""⟩, ⟨"d", some "1.10", "", "", ""⟩]).map Item.policyId =
      [some "1.2", some "1.10", some "1.10.1", some "2.1"] := by
  refine ⟨fun items => List.perm_insertionSort itemLe items, fun items => ?_,
    comparePolicyIds_eq_spec, rfl, by decide, by decide, by decide, by decide⟩
  exact (List.sorted_insertionSort itemLe items).imp fun h => (itemLe_iff_specItemLe _ _).mp h

theorem startsWithChars_iff : ∀ l p : List Char,
    startsWithChars l p = true ↔ ∃ rest, l = p ++ rest := by
  intro l
  induction l with
  | nil =>
    intro p
    cases p <;> simp [startsWithChars]
  | cons a as ih =>
    intro p
    cases p with
    | nil => simp [startsWithChars]
    | cons b bs =>
      simp only [startsWithChars]
      by_cases hab : a = b
      · subst hab
        simp [ih bs]
      · simp [hab]

theorem containsChars_iff : ∀ hs p : List Char,
    containsChars p hs = true ↔ isSubstringOf p hs := by
  intro hs
  induction hs with
  | nil =>
    intro p
    simp only [containsChars, startsWithChars_iff, isSubstringOf]
    constructor
    · rintro ⟨rest, hr⟩
      exact ⟨[], rest, by simpa using hr⟩
    · rintro ⟨pre, post, hp⟩
      rcases List.append_eq_nil.mp hp.symm with ⟨h1, h2⟩
      rcases List.append_eq_nil.mp h1 with ⟨h3, h4⟩
      exact ⟨post, by simp [h2, h4]⟩
  | cons c rest ih =>
    intro p
    simp only [containsChars, Bool.or_eq_true, startsWithChars_iff, ih, isSubstringOf]
    constructor
    · rintro (⟨r, hr⟩ | ⟨pre, post, hp⟩)
      · exact ⟨[], r, by simpa using hr⟩
      · exact ⟨c :: pre, post, by simp [hp]⟩
    · rintro ⟨pre, post, hp⟩
      cases pre with
      | nil =>
        left
        exact ⟨post, by simpa using hp⟩
      | cons x xs =>
        right
        simp only [List.cons_append, List.cons.injEq] at hp
        exact ⟨xs, post, hp.2⟩

theorem strIncludes_iff (s sub : String) :
    strIncludes s sub = true ↔ isSubstringOf sub.data s.data :=
  containsChars_iff s.data sub.data

theorem matchesSearch_iff (q : String) (it : Item) :
    matchesSearch q it = true ↔ specMatches q it := by
  simp [matchesSearch, specMatches, Bool.or_eq_true, strIncludes_iff, or_assoc]

/-- C5 (amended): the search filter keeps exactly the items whose name/title,
identifier or section name contains the query as a case-insensitive
substring, and the empty query keeps every item with order preserved; on the
scenario identifiers, query "1.1" matches "1.1.1", "1.10.1" and also "2.1.1"
(which contains "1.1" starting at its third character). -/
theorem c5_amended :
    (∀ (q : String) (items : List Item) (it : Item),
      it ∈ applySearch q items ↔ it ∈ items ∧ (q = "" ∨ specMatches q it)) ∧
    (∀ items : List Item, applySearch "" items = items) ∧
    (∀ (q : String) (items : List Item), (applySearch q items).Sublist items) ∧
    applySearch "1.1"
      [⟨"u1", some "1.1.1", "Alpha", "1", "Organizational Identity & Values"⟩,
        ⟨"u2", some "1.10.1", "Beta", "1", "Organizational Identity & Values"⟩,
        ⟨"u3", some "2.1.1", "Gamma", "2", "Governance & Elections"⟩] =
      [⟨"u1", some "1.1.1", "Alpha", "1", "Organizational Identity & Values"⟩,
        ⟨"u2", some "1.10.1", "Beta", "1", "Organizational Identity & Values"⟩,
        ⟨"u3", some "2.1.1", "Gamma", "2", "Governance & Elections"⟩] := by
  refine ⟨?_, ?_, ?_, by decide⟩
  · intro q items it
    by_cases hq : q = ""
    · subst hq
      simp [applySearch]
    · simp [applySearch, hq, List.mem_filter, matchesSearch_iff]
  · intro items
    simp [applySearch]
  · intro q items
    unfold applySearch
    split
    · exact List.filter_sublist items
    · exact List.Sublist.refl items

/-- C5 counterexample: the claim asserts that the query "1.1" does not match
the identifier "2.1.1", but the filter keeps that item — "2.1.1" contains
"1.1" as a substring. -/
theorem c5_counterexample :
    (⟨"u3", some "2.1.1", "Gamma", "2", "Governance & Elections"⟩ : Item) ∈
      applySearch "1.1"
        [⟨"u1", some "1.1.1", "Alpha", "1", "Organizational Identity & Values"⟩,
          ⟨"u2", some "1.10.1", "Beta", "1", "Organizational Identity & Values"⟩,
          ⟨"u3", some "2.1.1", "Gamma", "2", "Governance & Elections"⟩] := by
  decide

/-- C2 (amended): `checkForNewPolicies` leaves the recorded identifier set
(and the whole page state) unchanged whenever the freshly fetched identifier
set is not strictly larger in cardinality; only in the strictly-larger case
is the recorded set replaced, and then with the identifier set computed by
the triggered re-render (`renderSections`), not with the poller's own fetch
result. -/
theorem c2_amended : ∀ (st : PageState) (pollResp : Except ApiError (List RawPolicy))
    (env : FetchEnv),
    ((newPolicyIdsOf pollResp).card ≤ st.currentPolicyIds.card →
      checkForNewPolicies st pollResp env = ⟨st, none, false⟩) ∧
    (st.currentPolicyIds.card < (newPolicyIdsOf pollResp).card →
      checkForNewPolicies st pollResp env =
        ⟨⟨st.openSections, st.searchTerm, (renderSections st.searchTerm env).newCurrentIds⟩,
          some ((newPolicyIdsOf pollResp).card - st.currentPolicyIds.card), true⟩) := by
  intro st pollResp env
  constructor
  · intro h
    simp only [checkForNewPolicies]
    rw [if_neg (by omega)]
  · intro h
    simp only [checkForNewPolicies]
    rw [if_pos (by omega)]

theorem c2_amended_witness :
    checkForNewPolicies ⟨[1, 2, 3], "", {"1", "2"}⟩
      (.ok [{ id := "u1", policy_id := some "1" }]) ⟨.ok [], .ok [], .ok [], .ok []⟩ =
      ⟨⟨[1, 2, 3], "", {"1", "2"}⟩, none, false⟩ :=
  (c2_amended ⟨[1, 2, 3], "", {"1", "2"}⟩ (.ok [{ id := "u1", policy_id := some "1" }])
    ⟨.ok [], .ok [], .ok [], .ok []⟩).1 (by decide)

/-- C2 counterexample: a check whose fetch yields the identifier set
`{"1"}` — not strictly larger than the recorded `{"1", "2"}` — leaves the
recorded set at `{"1", "2"}` instead of replacing it with `{"1"}`, refuting
"the recorded set is replaced after every check". -/
theorem c2_counterexample :
    newPolicyIdsOf (.ok [{ id := "u1", policy_id := some "1" }]) = {"1"} ∧
    (checkForNewPolicies ⟨[1, 2, 3], "", {"1", "2"}⟩
      (.ok [{ id := "u1", policy_id := some "1" }])
      ⟨.ok [], .ok [], .ok [], .ok []⟩).state.currentPolicyIds = {"1", "2"} ∧
    ({"1", "2"} : Finset String) ≠ {"1"} := by
  refine ⟨by decide, by decide, by decide⟩

/-- C6: a check notifies with the cardinality difference, and triggers a
re-render that leaves the open/closed section list untouched, exactly when
the freshly fetched identifier set is strictly larger than the recorded one;
in the 3-identifiers-then-4 scenario, exactly one notification citing 1 new
policy is shown and the recorded set becomes size 4.  (The notification is
`some count`: `showNewPoliciesNotification` removes any existing notification
element first, so at most one is visible, and it is dismissible and
auto-removed — transient UI behavior outside this model.) -/
theorem c6_poller_notification :
    (∀ (st : PageState) (pollResp : Except ApiError (List RawPolicy)) (env : FetchEnv),
      (checkForNewPolicies st pollResp env).notification =
        (if st.currentPolicyIds.card < (newPolicyIdsOf pollResp).card then
          some ((newPolicyIdsOf pollResp).card - st.currentPolicyIds.card) else none) ∧
      (checkForNewPolicies st pollResp env).rerendered =
        decide (st.currentPolicyIds.card < (newPolicyIdsOf pollResp).card) ∧
      (checkForNewPolicies st pollResp env).state.openSections = st.openSections ∧
      (((checkForNewPolicies st pollResp env).notification ≠ none ∧
        (checkForNewPolicies st pollResp env).rerendered = true) ↔
        st.currentPolicyIds.card < (newPolicyIdsOf pollResp).card)) ∧
    (checkForNewPolicies ⟨[1, 2, 3], "", {"1.1", "1.2", "2.1"}⟩
      (.ok [{ id := "a", policy_id := some "1.1", policy_name := some "A", «section» := some "1" },
        { id := "b", policy_id := some "1.2", policy_name := some "B", «section» := some "1" },
        { id := "c", policy_id := some "2.1", policy_name := some "C", «section» := some "2" },
        { id := "d", policy_id := some "3.1", policy_name := some "D", «section» := some "3" }])
      ⟨.ok [{ id := "a", policy_id := some "1.1", policy_name := some "A", «section» := some "1" },
          { id := "b", policy_id := some "1.2", policy_name := some "B", «section» := some "1" }],
        .ok [{ id := "c", policy_id := some "2.1", policy_name := some "C", «section» := some "2" }],
        .ok [{ id := "d", policy_id := some "3.1", policy_name := some "D", «section» := some "3" }],
        .ok []⟩).notification = some 1 ∧
    (checkForNewPolicies ⟨[1, 2, 3], "", {"1.1", "1.2", "2.1"}⟩
      (.ok [{ id := "a", policy_id := some "1.1", policy_name := some "A", «section» := some "1" },
        { id := "b", policy_id := some "1.2", policy_name := some "B", «section» := some "1" },
        { id := "c", policy_id := some "2.1", policy_name := some "C", «section» := some "2" },
        { id := "d", policy_id := some "3.1", policy_name := some "D", «section» := some "3" }])
      ⟨.ok [{ id := "a", policy_id := some "1.1", policy_name := some "A", «section» := some "1" },
          { id := "b", policy_id := some "1.2", policy_name := some "B", «section» := some "1" }],
        .ok [{ id := "c", policy_id := some "2.1", policy_name := some "C", «section» := some "2" }],
        .ok [{ id := "d", policy_id := some "3.1", policy_name := some "D", «section» := some "3" }],
        .ok []⟩).state.currentPolicyIds.card = 4 := by
  refine ⟨?_, by decide, by decide⟩
  intro st pollResp env
  by_cases h : st.currentPolicyIds.card < (newPolicyIdsOf pollResp).card
  · have hc : (newPolicyIdsOf pollResp).card > st.currentPolicyIds.card := h
    simp only [checkForNewPolicies]
    rw [if_pos hc]
    simp [h]
  · have hc : ¬((newPolicyIdsOf pollResp).card > st.currentPolicyIds.card) := h
    simp only [checkForNewPolicies]
    rw [if_neg hc]
    simp [h]

theorem mem_applySearch {q : String} {items : List Item} {it : Item}
    (h : it ∈ applySearch q items) : it ∈ items := by
  unfold applySearch at h
  split at h
  · exact List.mem_of_mem_filter h
  · exact h

theorem mem_sortItemsByPolicyNumber {items : List Item} {it : Item} :
    it ∈ sortItemsByPolicyNumber items ↔ it ∈ items :=
  (List.perm_insertionSort itemLe items).mem_iff

/-- C3 (amended): a failed per-section fetch is swallowed inside
`getApprovedPolicies` (which returns the empty list), so the failing section
renders empty and the fallback branch is never taken — the complete
unfiltered list is never fetched; the fallback grouping code itself, were it
reached, defaults only a missing/empty `section` field to "1" and places
every item into the section matching its own key, silently dropping records
whose section value is none of "1", "2", "3". -/
theorem c3_amended :
    (∀ (searchTerm : String) (env : FetchEnv),
      (renderSections searchTerm env).usedFallback = false ∧
      (renderSections searchTerm env).fullListFetched = false) ∧
    (∀ (searchTerm : String) (sec : SectionSpec) (e : ApiError),
      primarySection searchTerm sec (.error e) = ⟨sec.id, sec.title, sec.sectionKey, []⟩) ∧
    (∀ (searchTerm : String) (resp : Except ApiError (List RawPolicy))
      (sec : SectionData) (it : Item), sec ∈ fallbackSections searchTerm resp →
        it ∈ sec.items → it.«section» = sec.sectionKey ∧
          (sec.sectionKey = "1" ∨ sec.sectionKey = "2" ∨ sec.sectionKey = "3")) := by
  refine ⟨fun searchTerm env => ⟨rfl, rfl⟩, ?_, ?_⟩
  · intro searchTerm sec e
    simp [primarySection, getApprovedPolicies, applySearch, sortItemsByPolicyNumber,
      List.insertionSort]
  · intro searchTerm resp sec it hsec hit
    simp only [fallbackSections, sections, List.map, List.mem_cons, List.not_mem_nil,
      or_false] at hsec
    rcases hsec with h | h | h <;> subst h <;>
    · refine ⟨?_, by simp⟩
      have h1 := mem_applySearch (mem_sortItemsByPolicyNumber.mp hit)
      rcases List.mem_map.mp h1 with ⟨p, hp, hpe⟩
      have h2 := (List.mem_filter.mp hp).2
      rw [← hpe]
      simpa using h2

/-- C3 counterexample: with section 2's fetch failing and the full list
available, `renderSections` renders section 2 empty and never issues the
fallback full-list fetch (the claim demands discarding the partial results
and grouping the fetched full list, which would put one item in section 2);
moreover the fallback grouping itself drops a record with the unknown
section value "4" instead of defaulting it to the first category. -/
theorem c3_counterexample :
    ((renderSections ""
      ⟨.ok [{ id := "u1", policy_id := some "1.1", policy_name := some "A", «section» := some "1" }],
        .error .networkError,
        .ok [{ id := "u3", policy_id := some "3.1", policy_name := some "C", «section» := some "3" }],
        .ok [{ id := "u1", policy_id := some "1.1", policy_name := some "A", «section» := some "1" },
          { id := "u2", policy_id := some "2.1", policy_name := some "B", «section» := some "2" },
          { id := "u3", policy_id := some "3.1", policy_name := some "C", «section» := some "3" }]⟩
      ).sectionsWithItems.map (fun s => s.items.length) = [1, 0, 1]) ∧
    (renderSections ""
      ⟨.ok [{ id := "u1", policy_id := some "1.1", policy_name := some "A", «section» := some "1" }],
        .error .networkError,
        .ok [{ id := "u3", policy_id := some "3.1", policy_name := some "C", «section» := some "3" }],
        .ok [{ id := "u1", policy_id := some "1.1", policy_name := some "A", «section» := some "1" },
          { id := "u2", policy_id := some "2.1", policy_name := some "B", «section» := some "2" },
          { id := "u3", policy_id := some "3.1", policy_name := some "C", «section» := some "3" }]⟩
      ).fullListFetched = false ∧
    (fallbackSections ""
      (.ok [{ id := "u4", policy_id := some "4.1", policy_name := some "D", «section» := some "4" }])
      ).map SectionData.items = [[], [], []] := by
  refine ⟨by decide, by decide, by decide⟩

theorem c3_amended_witness :
    (renderSections "" ⟨.ok [], .ok [], .ok [], .ok []⟩).usedFallback = false ∧
    primarySection "" ⟨2, "Governance & Elections", "2"⟩ (.error .networkError) =
      ⟨2, "Governance & Elections", "2", []⟩ ∧
    ((⟨"u1", some "u1", "Untitled", "2", "Governance & Elections"⟩ : Item).«section» = "2" ∧
      (("2" : String) = "1" ∨ ("2" : String) = "2" ∨ ("2" : String) = "3")) :=
  ⟨(c3_amended.1 "" ⟨.ok [], .ok [], .ok [], .ok []⟩).1,
    c3_amended.2.1 "" ⟨2, "Governance & Elections", "2"⟩ .networkError,
    c3_amended.2.2 "" (.ok [{ id := "u1", «section» := some "2" }])
      ⟨2, "Governance & Elections", "2",
        [⟨"u1", some "u1", "Untitled", "2", "Governance & Elections"⟩]⟩
      ⟨"u1", some "u1", "Untitled", "2", "Governance & Elections"⟩ (by decide) (by decide)⟩

/-- C4 counterexample: the admin delete action receiving HTTP 401 alerts and
redirects to the login page but leaves the bearer token in client storage —
the claim that the token is discarded on 401 is false at this input. -/
theorem c4_counterexample :
    deletePolicy (some "token123") (.resp 200 (some "admin")) true (.resp 401 "") =
      ⟨some "token123", some "admin/login.html",
        ["Your session has expired. Please login again."]⟩ ∧
    some "token123" ≠ (none : Option String) := by
  refine ⟨by decide, by decide⟩

/-- C4 (amended): for the cited admin delete-policy and approve-policy
actions, an HTTP 401 response is treated as session expiry by alerting and
redirecting to the login page, while the stored bearer token is left in
client storage — only the explicit logout action removes it; an HTTP 403
response surfaces a permission-denied alert without discarding the token and
without redirecting. -/
theorem c4_amended : ∀ (t bodyText statusText : String) (d : Option (Option String)),
    (deletePolicy (some t) (.resp 200 (some "admin")) true (.resp 401 bodyText) =
      ⟨some t, some "admin/login.html", ["Your session has expired. Please login again."]⟩) ∧
    (deletePolicy (some t) (.resp 200 (some "admin")) true (.resp 403 bodyText) =
      ⟨some t, none, ["Sorry, only admin is allowed to delete policy."]⟩) ∧
    (approvePolicy (some t) true (.resp 401 statusText d) =
      ⟨some t, some "admin/login.html", ["Your session has expired. Please login again."]⟩) ∧
    (approvePolicy (some t) true (.resp 403 statusText d) =
      ⟨some t, none, ["Only admins can approve policies."]⟩) ∧
    (handleLogout true (some t) = ⟨none, some "login.html", []⟩) := by
  intro t bodyText statusText d
  refine ⟨rfl, rfl, rfl, rfl, rfl⟩

/-- C7: `apiRequest` maps every fetch outcome to a distinct result — 404 to
not-found, any status ≥ 500 to a generic retryable server error, any other
non-2xx to an error carrying the body's JSON `detail` (or a generic message
when the body is not JSON), 204 to an empty success value, a network-level
failure to a network error distinct from every server-side error, and any
other 2xx to the parsed JSON body. -/
theorem c7_api_request_taxonomy :
    (∀ body, apiRequest (.response 404 body) = .error .notFound) ∧
    (∀ (s : Nat) (body), 500 ≤ s → apiRequest (.response s body) = .error .serverError) ∧
    (∀ (s : Nat) (b : JsonBody), ¬(200 ≤ s ∧ s ≤ 299) → s ≠ 404 → s < 500 →
      apiRequest (.response s (some b)) =
        .error (.requestFailed (jsOr b.detail "Request failed"))) ∧
    (∀ s : Nat, ¬(200 ≤ s ∧ s ≤ 299) → s ≠ 404 → s < 500 →
      apiRequest (.response s none) = .error (.requestFailed "Request failed")) ∧
    (∀ body, apiRequest (.response 204 body) = .ok none) ∧
    apiRequest .networkFailure = .error .networkError ∧
    (∀ msg, ApiError.networkError ≠ .notFound ∧ ApiError.networkError ≠ .serverError ∧
      ApiError.networkError ≠ .requestFailed msg ∧ ApiError.networkError ≠ .bodyNotJson) ∧
    (∀ (s : Nat) (b : JsonBody), 200 ≤ s → s ≤ 299 → s ≠ 204 →
      apiRequest (.response s (some b)) = .ok (some b)) := by
  refine ⟨fun body => rfl, ?_, ?_, ?_, fun body => rfl, rfl, fun msg => by
    refine ⟨by simp, by simp, by simp, by simp⟩, ?_⟩
  · intro s body h
    simp only [apiRequest]
    rw [if_pos (by omega : ¬(200 ≤ s ∧ s ≤ 299)), if_neg (by omega : ¬s = 404), if_pos h]
  · intro s b h1 h2 h3
    simp only [apiRequest]
    rw [if_pos h1, if_neg h2, if_neg (by omega : ¬500 ≤ s)]
  · intro s h1 h2 h3
    simp only [apiRequest]
    rw [if_pos h1, if_neg h2, if_neg (by omega : ¬500 ≤ s)]
  · intro s b h1 h2 h3
    simp only [apiRequest]
    rw [if_neg (by omega : ¬¬(200 ≤ s ∧ s ≤ 299)), if_neg h3]

theorem c7_witness :
    apiRequest (.response 503 none) = .error .serverError ∧
    apiRequest (.response 418 (some ⟨some "teapot", ""⟩)) = .error (.requestFailed "teapot") ∧
    apiRequest (.response 400 none) = .error (.requestFailed "Request failed") ∧
    apiRequest (.response 200 (some ⟨none, "payload"⟩)) = .ok (some ⟨none, "payload"⟩) :=
  ⟨c7_api_request_taxonomy.2.1 503 none (by omega),
    c7_api_request_taxonomy.2.2.1 418 ⟨some "teapot", ""⟩ (by omega) (by omega) (by omega),
    c7_api_request_taxonomy.2.2.2.1 400 (by omega) (by omega) (by omega),
    c7_api_request_taxonomy.2.2.2.2.2.2.2 200 ⟨none, "payload"⟩ (by omega) (by omega) (by omega)⟩

theorem zip_self_eq {α : Type} : ∀ (l : List α) (p : α × α), p ∈ l.zip l → p.1 = p.2 := by
  intro l
  induction l with
  | nil => simp
  | cons a as ih =>
    intro p hp
    rcases List.mem_cons.mp hp with h | h
    · simp [h]
    · exact ih p h

theorem updateFirstNode_length (sid : Nat) (b : Bool) :
    ∀ l : List SectionNode, (updateFirstNode sid b l).length = l.length := by
  intro l
  induction l with
  | nil => rfl
  | cons n ns ih =>
    simp only [updateFirstNode]
    split <;> simp [ih]

theorem updateFirstNode_zip (sid : Nat) (b : Bool) :
    ∀ (l : List SectionNode) (p : SectionNode × SectionNode),
      p ∈ (updateFirstNode sid b l).zip l →
        (p.1.sectionId = p.2.sectionId ∧ p.1.contentHtml = p.2.contentHtml) ∧
        (p.2.sectionId ≠ sid → p.1 = p.2) := by
  intro l
  induction l with
  | nil => simp [updateFirstNode]
  | cons n ns ih =>
    intro p hp
    simp only [updateFirstNode] at hp
    by_cases hn : n.sectionId = sid
    · rw [if_pos hn] at hp
      rcases List.mem_cons.mp hp with h | h
      · subst h
        exact ⟨⟨rfl, rfl⟩, fun hne => absurd hn hne⟩
      · have := zip_self_eq ns p h
        exact ⟨⟨by rw [this], by rw [this]⟩, fun _ => this⟩
    · rw [if_neg hn] at hp
      rcases List.mem_cons.mp hp with h | h
      · subst h
        exact ⟨⟨rfl, rfl⟩, fun _ => rfl⟩
      · exact ih p h

theorem removeFirst_mem_iff {s x : Nat} (h : s ≠ x) :
    ∀ l : List Nat, s ∈ removeFirst x l ↔ s ∈ l := by
  intro l
  induction l with
  | nil => simp [removeFirst]
  | cons y ys ih =>
    simp only [removeFirst]
    by_cases hy : y = x
    · rw [if_pos hy]
      subst hy
      simp [List.mem_cons, ih]
      intro he
      exact absurd he h
    · rw [if_neg hy]
      simp [List.mem_cons, ih]

/-- C8: `toggleSection` issues no fetch (the fetch log is untouched), changes
the membership of no other section id in the open-section state list, keeps
the DOM's section list the same length, leaves every node whose
`data-section-id` differs from the toggled id unchanged, and even on the
matching node changes only the open/closed classes, never its identity or
content markup. -/
theorem c8_toggle_frame : ∀ (sid : Nat) (st : ToggleState),
    (toggleSection sid st).fetchLog = st.fetchLog ∧
    (∀ s : Nat, s ≠ sid →
      (s ∈ (toggleSection sid st).openSections ↔ s ∈ st.openSections)) ∧
    (toggleSection sid st).dom.length = st.dom.length ∧
    (∀ p : SectionNode × SectionNode, p ∈ (toggleSection sid st).dom.zip st.dom →
      (p.1.sectionId = p.2.sectionId ∧ p.1.contentHtml = p.2.contentHtml) ∧
      (p.2.sectionId ≠ sid → p.1 = p.2)) := by
  intro sid st
  refine ⟨rfl, ?_, updateFirstNode_length sid _ st.dom, fun p hp =>
    updateFirstNode_zip sid _ st.dom p hp⟩
  intro s hs
  simp only [toggleSection]
  by_cases hmem : sid ∈ st.openSections
  · rw [if_pos hmem]
    exact removeFirst_mem_iff hs st.openSections
  · rw [if_neg hmem]
    simp [List.mem_append, hs]

theorem c8_witness :
    (toggleSection 2 ⟨[1, 2, 3], [⟨1, true, true, "x"⟩, ⟨2, true, true, "y"⟩], []⟩).fetchLog =
      [] ∧
    (1 ∈ (toggleSection 2
        ⟨[1, 2, 3], [⟨1, true, true, "x"⟩, ⟨2, true, true, "y"⟩], []⟩).openSections ↔
      1 ∈ [1, 2, 3]) :=
  ⟨(c8_toggle_frame 2 ⟨[1, 2, 3], [⟨1, true, true, "x"⟩, ⟨2, true, true, "y"⟩], []⟩).1,
    (c8_toggle_frame 2 ⟨[1, 2, 3], [⟨1, true, true, "x"⟩, ⟨2, true, true, "y"⟩], []⟩).2.1 1
      (by decide)⟩

/-- C9: when the entered email does not contain "@ualberta.ca", the
suggestion submission stops at a client-side validation alert and no network
request is issued. -/
theorem c9_email_validation : ∀ f : FormState,
    strIncludes f.emailInputValue "@ualberta.ca" = false →
    (suggestionSubmit f).isRejected = true ∧ (suggestionSubmit f).requests = [] := by
  intro f h
  simp only [suggestionSubmit]
  split_ifs <;> simp_all [SubmitOutcome.isRejected, SubmitOutcome.requests]

theorem c9_witness :
    (suggestionSubmit ⟨"1.1", "Improve lighting", "someone@gmail.com"⟩).isRejected = true ∧
    (suggestionSubmit ⟨"1.1", "Improve lighting", "someone@gmail.com"⟩).requests = [] :=
  c9_email_validation ⟨"1.1", "Improve lighting", "someone@gmail.com"⟩ (by decide)

/-- C10: every body actually POSTed by the suggestion handler consists of
exactly the fields `policy_id` (the selected policy identifier, necessarily
non-empty), `suggestion` (the trimmed text), and `status` "pending"; no
`email` field is ever part of the request. -/
theorem c10_submission_body : ∀ (f : FormState) (body : List (String × String)),
    suggestionSubmit f = .submitted body →
    body = [("policy_id", f.policySelectValue), ("suggestion", trimStr f.suggestionTextValue),
      ("status", "pending")] ∧
    f.policySelectValue ≠ "" ∧
    body.map Prod.fst = ["policy_id", "suggestion", "status"] ∧
    (∀ kv ∈ body, kv.1 ≠ "email") := by
  intro f body h
  simp only [suggestionSubmit] at h
  by_cases h1 : trimStr f.emailInputValue = ""
  · rw [if_pos h1] at h
    exact absurd h (by simp)
  rw [if_neg h1] at h
  by_cases h2 : f.policySelectValue = ""
  · rw [if_pos h2] at h
    exact absurd h (by simp)
  rw [if_neg h2] at h
  by_cases h3 : trimStr f.suggestionTextValue = ""
  · rw [if_pos h3] at h
    exact absurd h (by simp)
  rw [if_neg h3] at h
  by_cases h4 : strIncludes f.emailInputValue "@ualberta.ca" = false
  · rw [if_pos h4] at h
    exact absurd h (by simp)
  rw [if_neg h4] at h
  simp only [SubmitOutcome.submitted.injEq] at h
  subst h
  refine ⟨rfl, h2, rfl, ?_⟩
  intro kv hkv
  rcases List.mem_cons.mp hkv with he | hkv
  · subst he
    simp
  rcases List.mem_cons.mp hkv with he | hkv
  · subst he
    simp
  rcases List.mem_cons.mp hkv with he | hkv
  · subst he
    simp
  · simp at hkv

theorem c10_witness :
    ([("policy_id", "1.1"), ("suggestion", "Great idea"), ("status", "pending")] :
      List (String × String)).map Prod.fst = ["policy_id", "suggestion", "status"] ∧
    ("1.1" : String) ≠ "" := by
  have h := c10_submission_body ⟨"1.1", " Great idea ", "me@ualberta.ca"⟩
    [("policy_id", "1.1"), ("suggestion", "Great idea"), ("status", "pending")] (by decide)
  exact ⟨h.2.2.1, h.2.1⟩
